import Mathlib

/-!
Shallow embedding of the legal-search query pipeline of this repository:
the session-state codec, the query builder, the result post-processor
(`app.py`) and the generator-response validator with its retry loop
(`llm.py`).  Machine data (JSON payloads, `ast.literal_eval` results) is
modelled by one tree type `Json`; fallible steps return `Except` or
`Option`.
-/

namespace DemoSearch

/-- The whitespace class of Python `str.split()` (ASCII whitespace; the
queries in scope contain no exotic unicode spaces). -/
def isPySpace (c : Char) : Bool :=
  c == ' ' || c == '\t' || c == '\n' || c == '\r' || c == '\x0b' || c == '\x0c'

/-- Accumulating splitter behind `pySplit`. -/
def splitWsAux : List Char → List Char → List String
  | [], acc => if acc.isEmpty then [] else [String.mk acc.reverse]
  | c :: rest, acc =>
    if isPySpace c then
      if acc.isEmpty then splitWsAux rest []
      else String.mk acc.reverse :: splitWsAux rest []
    else splitWsAux rest (c :: acc)

/-- Python `text.split()` — split on runs of whitespace, discarding empty
pieces. -/
def pySplit (s : String) : List String :=
  splitWsAux s.data []

/-- Python `str.lower` on one character, restricted to the ASCII case map
(the texts compared case-insensitively in this pipeline are ASCII). -/
def lowerChar (c : Char) : Char :=
  if 65 ≤ c.toNat ∧ c.toNat ≤ 90 then Char.ofNat (c.toNat + 32) else c

/-- Python `str.lower` (ASCII case map). -/
def pyLower (s : String) : String :=
  String.mk (s.data.map lowerChar)

/-- Left-to-right, non-overlapping replacement behind `pyReplace`; the
fuel starts at the length of the string, which bounds the number of
steps. -/
def replaceAux (pat rep : List Char) : ℕ → List Char → List Char
  | _, [] => []
  | 0, rest => rest
  | fuel + 1, c :: rest =>
    if pat.isPrefixOf (c :: rest) then
      rep ++ replaceAux pat rep fuel ((c :: rest).drop pat.length)
    else
      c :: replaceAux pat rep fuel rest

/-- Python `s.replace(pat, rep)` for a non-empty pattern (both patterns
used by the code, `<em>` and `</em>`, are non-empty). -/
def pyReplace (s pat rep : String) : String :=
  if pat.data.isEmpty then s
  else String.mk (replaceAux pat.data rep.data s.data.length s.data)

/-- Character-level concatenation with a separator, behind `pyJoin`. -/
def pyJoinAux (sep : List Char) : List (List Char) → List Char
  | [] => []
  | [x] => x
  | x :: xs => x ++ sep ++ pyJoinAux sep xs

/-- Python `sep.join(xs)`. -/
def pyJoin (sep : String) (xs : List String) : String :=
  String.mk (pyJoinAux sep.data (xs.map String.data))

/-- The NLTK English stopword corpus downloaded at startup
(`nltk.download('stopwords')`, `stopwords.words('english')` in `app.py`);
the set `STOPWORDS` is modelled as this list with `contains` membership. -/
def STOPWORDS : List String :=
  ["i", "me", "my", "myself", "we", "our", "ours", "ourselves", "you",
   "you\x27re", "you\x27ve", "you\x27ll", "you\x27d", "your", "yours",
   "yourself", "yourselves", "he", "him", "his", "himself", "she",
   "she\x27s", "her", "hers", "herself", "it", "it\x27s", "its", "itself",
   "they", "them", "their", "theirs", "themselves", "what", "which", "who",
   "whom", "this", "that", "that\x27ll", "these", "those", "am", "is",
   "are", "was", "were", "be", "been", "being", "have", "has", "had",
   "having", "do", "does", "did", "doing", "a", "an", "the", "and", "but",
   "if", "or", "because", "as", "until", "while", "of", "at", "by", "for",
   "with", "about", "against", "between", "into", "through", "during",
   "before", "after", "above", "below", "to", "from", "up", "down", "in",
   "out", "on", "off", "over", "under", "again", "further", "then", "once",
   "here", "there", "when", "where", "why", "how", "all", "any", "both",
   "each", "few", "more", "most", "other", "some", "such", "no", "nor",
   "not", "only", "own", "same", "so", "than", "too", "very", "s", "t",
   "can", "will", "just", "don", "don\x27t", "should", "should\x27ve",
   "now", "d", "ll", "m", "o", "re", "ve", "y", "ain", "aren",
   "aren\x27t", "couldn", "couldn\x27t", "didn", "didn\x27t", "doesn",
   "doesn\x27t", "hadn", "hadn\x27t", "hasn", "hasn\x27t", "haven",
   "haven\x27t", "isn", "isn\x27t", "ma", "mightn", "mightn\x27t",
   "mustn", "mustn\x27t", "needn", "needn\x27t", "shan", "shan\x27t",
   "shouldn", "shouldn\x27t", "wasn", "wasn\x27t", "weren", "weren\x27t",
   "won", "won\x27t", "wouldn", "wouldn\x27t"]

/-- `remove_stopwords` (app.py:60-61):
`' '.join(word for word in text.split() if word.lower() not in STOPWORDS)`. -/
def remove_stopwords (text : String) : String :=
  pyJoin " " ((pySplit text).filter (fun word => !(STOPWORDS.contains (pyLower word))))

/-- `Term` (app.py:63-78): a phrase plus its stopword-stripped form,
computed once at construction and cached. -/
structure Term where
  text : String
  no_stop : String
deriving DecidableEq

/-- `Term.__init__` (app.py:67-69): computes and caches the stripped form. -/
def Term.ofText (text : String) : Term :=
  { text := text, no_stop := remove_stopwords text }

/-- Left-to-right effectful map, as a Python list comprehension whose
body may raise: the first error aborts the whole comprehension. -/
def mapExcept {α β ε : Type} (f : α → Except ε β) : List α → Except ε (List β)
  | [] => .ok []
  | x :: xs => do
    let y ← f x
    let ys ← mapExcept f xs
    .ok (y :: ys)

/-- Left-to-right partial map: `none` as soon as one element fails. -/
def mapOption {α β : Type} (f : α → Option β) : List α → Option (List β)
  | [] => some []
  | x :: xs => do
    let y ← f x
    let ys ← mapOption f xs
    some (y :: ys)

/-- JSON-like Python values: the tree shape of `json` payloads and of
`ast.literal_eval` results used in the pipeline.  Numbers are rationals
(the pipeline only compares and stores them; the constants involved are
exactly representable). -/
inductive Json where
  | null
  | bool (b : Bool)
  | num (q : ℚ)
  | str (s : String)
  | arr (items : List Json)
  | obj (fields : List (String × Json))

/-- First-match lookup in an object field list (Python dict lookup; the
dicts produced by `json.loads` / `ast.literal_eval` have unique keys). -/
def lookupField : List (String × Json) → String → Option Json
  | [], _ => none
  | (k, v) :: rest, key => if k == key then some v else lookupField rest key

/-- `data[key]` on an object, `none` on a missing key or a non-object. -/
def Json.get : Json → String → Option Json
  | .obj fields, key => lookupField fields key
  | _, _ => none

/-- Chained key lookup, used by theorems to extract parts of the built
search request. -/
def Json.getPath : Json → List String → Option Json
  | j, [] => some j
  | j, k :: ks =>
    match j.get k with
    | some v => Json.getPath v ks
    | none => none

/-- The head of an array value, if any. -/
def Json.arrHead : Json → Option Json
  | .arr (x :: _) => some x
  | _ => none

/-- The length of an array value, if any. -/
def Json.arrLength : Json → Option Nat
  | .arr items => some items.length
  | _ => none

/-- Failures of the session-token decode path (`decode_queries` and the
library calls it makes): base64 errors, unicode decode errors, JSON
syntax errors, and shape errors (`KeyError` / type errors). -/
inductive DecodeError where
  | binascii (msg : String)
  | unicode (msg : String)
  | jsonSyntax (msg : String)
  | shape (msg : String)
deriving DecidableEq

/-- `data[key]` with `KeyError` on a missing key. -/
def getKey (data : Json) (key : String) : Except DecodeError Json :=
  match data.get key with
  | some v => .ok v
  | none => .error (.shape ("KeyError: " ++ key))

/-- A value required to be a string by the declared types of the decoded
log (`List[Tuple[str, ...]]`, `dict[str, str]`). -/
def Json.asStr : Json → Except DecodeError String
  | .str s => .ok s
  | _ => .error (.shape "expected a string")

/-- A value required to be an array (iterated by a comprehension). -/
def Json.asArr : Json → Except DecodeError (List Json)
  | .arr items => .ok items
  | _ => .error (.shape "expected an array")

/-- `Term.to_dict` (app.py:71-72). -/
def Term.to_dict (t : Term) : Json :=
  .obj [("text", .str t.text), ("no_stop", .str t.no_stop)]

/-- `Term.from_dict` (app.py:74-78): builds `Term(data["text"])` and then
overwrites the cached stripped form with the stored `data["no_stop"]`
("Skip recomputing"). -/
def Term.from_dict (data : Json) : Except DecodeError Term := do
  let textJ ← getKey data "text"
  let text ← textJ.asStr
  let nsJ ← getKey data "no_stop"
  let ns ← nsJ.asStr
  let term := Term.ofText text
  pure { term with no_stop := ns }

/-- `SearchHighlightResponse` (llm.py:6-16): plain string groups as parsed
from the generator. -/
structure SearchHighlightResponse where
  search : List (List String)
  highlight : List String
deriving DecidableEq

/-- `SearchHighlightResponseWithNoStop` (app.py:80-105). -/
structure SearchHighlightResponseWithNoStop where
  search : List (List Term)
  highlight : List Term
deriving DecidableEq

/-- `from_search_highlight_response` (app.py:88-92): wraps every phrase in
a `Term`, computing its stripped form. -/
def SearchHighlightResponseWithNoStop.from_search_highlight_response
    (resp : SearchHighlightResponse) : SearchHighlightResponseWithNoStop :=
  { search := resp.search.map (fun group => group.map Term.ofText),
    highlight := resp.highlight.map Term.ofText }

/-- `SearchHighlightResponseWithNoStop.to_dict` (app.py:95-99). -/
def SearchHighlightResponseWithNoStop.to_dict
    (r : SearchHighlightResponseWithNoStop) : Json :=
  .obj [("search", .arr (r.search.map (fun group => .arr (group.map Term.to_dict)))),
        ("highlight", .arr (r.highlight.map Term.to_dict))]

/-- `SearchHighlightResponseWithNoStop.from_dict` (app.py:101-105). -/
def SearchHighlightResponseWithNoStop.from_dict
    (data : Json) : Except DecodeError SearchHighlightResponseWithNoStop := do
  let searchJ ← getKey data "search"
  let searchItems ← searchJ.asArr
  let search ← mapExcept (fun g => do
    let items ← g.asArr
    mapExcept Term.from_dict items) searchItems
  let highlightJ ← getKey data "highlight"
  let highlightItems ← highlightJ.asArr
  let highlight ← mapExcept Term.from_dict highlightItems
  pure { search := search, highlight := highlight }

/-- The session log: one `(raw query text, expansion)` pair per turn. -/
abbrev SessionQueryLog := List (String × SearchHighlightResponseWithNoStop)

/-- `encode_queries` (app.py:107-111) up to the tree level: the
serializable structure `{"resp": [(query, resp.to_dict()), ...]}` that is
then printed by `json.dumps` and base64-encoded (string layer modelled
separately below). -/
def encode_queries (queries : SessionQueryLog) : Json :=
  .obj [("resp", .arr (queries.map (fun p => .arr [.str p.1, p.2.to_dict])))]

/-- One `(query, resp)` entry of the decoded payload (app.py:117): tuple
unpacking requires a two-element array whose first component is the raw
query string. -/
def decodeLogEntry (j : Json) : Except DecodeError (String × SearchHighlightResponseWithNoStop) := do
  let items ← j.asArr
  match items with
  | [q, respJ] => do
    let query ← q.asStr
    let resp ← SearchHighlightResponseWithNoStop.from_dict respJ
    pure (query, resp)
  | _ => .error (.shape "cannot unpack log entry")

/-- `decode_queries` (app.py:113-117) from the tree level: reads
`data["resp"]` and rebuilds every `(query, resp)` pair. -/
def decode_queries (data : Json) : Except DecodeError SessionQueryLog := do
  let respJ ← getKey data "resp"
  let entries ← respJ.asArr
  mapExcept decodeLogEntry entries

/-! ### Transport layer of the session token

`encode_queries`/`decode_queries` run the tree above through
`json.dumps`/`json.loads` and url-safe base64.  The decode direction is
modelled down to the character level because the claims depend on how
the library calls fail on empty and malformed tokens. -/

/-- The base64 value of one character after url-safe translation
(`A`-`Z`, `a`-`z`, `0`-`9`, `+`/`-`, `/`/`_`); `none` for characters
outside the alphabet, which `binascii`'s lenient mode discards. -/
def b64CharValue (c : Char) : Option ℕ :=
  let n := c.toNat
  if 65 ≤ n ∧ n ≤ 90 then some (n - 65)
  else if 97 ≤ n ∧ n ≤ 122 then some (n - 97 + 26)
  else if 48 ≤ n ∧ n ≤ 57 then some (n - 48 + 52)
  else if c == '+' || c == '-' then some 62
  else if c == '/' || c == '_' then some 63
  else none

/-- Rebuilds bytes from base64 sextets; a trailing single sextet is the
"number of data characters cannot be 1 more than a multiple of 4"
error. -/
def b64DecodeGroups : List ℕ → Except DecodeError (List ℕ)
  | [] => .ok []
  | [_] => .error (.binascii "Invalid base64-encoded string")
  | [a, b] => .ok [a * 4 + b / 16]
  | [a, b, c] => .ok [a * 4 + b / 16, (b % 16) * 16 + c / 4]
  | a :: b :: c :: d :: rest => do
    let tail ← b64DecodeGroups rest
    .ok ((a * 4 + b / 16) :: ((b % 16) * 16 + c / 4) :: ((c % 4) * 64 + d) :: tail)

/-- `base64.urlsafe_b64decode` on the token text: translate the url-safe
alphabet, discard characters outside the alphabet (lenient `binascii`
default), require the count of remaining characters including `=` padding
to be a multiple of four ("Incorrect padding" otherwise), then rebuild
the byte triples. -/
def urlsafe_b64decode (s : String) : Except DecodeError (List ℕ) :=
  let kept := s.data.filter (fun c => (b64CharValue c).isSome || c == '=')
  if kept.length % 4 != 0 then .error (.binascii "Incorrect padding")
  else b64DecodeGroups (kept.filterMap b64CharValue)

/-- Strict UTF-8 decoding of bytes (`bytes.decode()`); rejects invalid
start bytes, truncated or invalid continuations, overlong forms and
surrogates, as CPython does.  Fuel bounds the recursion; one byte is
consumed per step. -/
def utf8Decode : ℕ → List ℕ → Except DecodeError (List Char)
  | _, [] => .ok []
  | 0, _ => .error (.unicode "fuel exhausted")
  | fuel + 1, b :: rest =>
    if b < 0x80 then do
      let tail ← utf8Decode fuel rest
      .ok (Char.ofNat b :: tail)
    else if b < 0xC2 then .error (.unicode "invalid start byte")
    else if b < 0xE0 then
      match rest with
      | b1 :: rest1 =>
        if 0x80 ≤ b1 ∧ b1 < 0xC0 then do
          let tail ← utf8Decode fuel rest1
          .ok (Char.ofNat ((b - 0xC0) * 0x40 + (b1 - 0x80)) :: tail)
        else .error (.unicode "invalid continuation byte")
      | _ => .error (.unicode "unexpected end of data")
    else if b < 0xF0 then
      match rest with
      | b1 :: b2 :: rest2 =>
        if (0x80 ≤ b1 ∧ b1 < 0xC0) ∧ (0x80 ≤ b2 ∧ b2 < 0xC0)
            ∧ (b != 0xE0 || b1 ≥ 0xA0) ∧ (b != 0xED || b1 < 0xA0) then do
          let tail ← utf8Decode fuel rest2
          .ok (Char.ofNat ((b - 0xE0) * 0x1000 + (b1 - 0x80) * 0x40 + (b2 - 0x80)) :: tail)
        else .error (.unicode "invalid continuation byte")
      | _ => .error (.unicode "unexpected end of data")
    else if b < 0xF5 then
      match rest with
      | b1 :: b2 :: b3 :: rest3 =>
        if (0x80 ≤ b1 ∧ b1 < 0xC0) ∧ (0x80 ≤ b2 ∧ b2 < 0xC0) ∧ (0x80 ≤ b3 ∧ b3 < 0xC0)
            ∧ (b != 0xF0 || b1 ≥ 0x90) ∧ (b != 0xF4 || b1 < 0x90) then do
          let tail ← utf8Decode fuel rest3
          .ok (Char.ofNat ((b - 0xF0) * 0x40000 + (b1 - 0x80) * 0x1000
                + (b2 - 0x80) * 0x40 + (b3 - 0x80)) :: tail)
        else .error (.unicode "invalid continuation byte")
      | _ => .error (.unicode "unexpected end of data")
    else .error (.unicode "invalid start byte")

/-- JSON whitespace skip (`json.loads`). -/
def skipWs : List Char → List Char
  | c :: rest =>
    if c == ' ' || c == '\t' || c == '\n' || c == '\r' then skipWs rest else c :: rest
  | [] => []

/-- Value of one hexadecimal digit. -/
def hexVal (c : Char) : Option ℕ :=
  let n := c.toNat
  if 48 ≤ n ∧ n ≤ 57 then some (n - 48)
  else if 97 ≤ n ∧ n ≤ 102 then some (n - 97 + 10)
  else if 65 ≤ n ∧ n ≤ 70 then some (n - 65 + 10)
  else none

/-- JSON string body after the opening quote: handles the standard
escapes and `\uXXXX` with surrogate-pair combination.  Lone surrogates —
which CPython tolerates but a Lean `String` cannot hold — are reported as
unicode errors; the codec serializes well-formed text and never emits
them. -/
def parseStringBody : ℕ → List Char → Except DecodeError (List Char × List Char)
  | 0, _ => .error (.jsonSyntax "fuel exhausted")
  | fuel + 1, cs =>
    match cs with
    | [] => .error (.jsonSyntax "Unterminated string")
    | c :: rest =>
      if c == '"' then .ok ([], rest)
      else if c == '\\' then
        match rest with
        | [] => .error (.jsonSyntax "Unterminated string")
        | e :: rest1 =>
          if e == 'u' then
            match rest1 with
            | h1 :: h2 :: h3 :: h4 :: rest2 =>
              match hexVal h1, hexVal h2, hexVal h3, hexVal h4 with
              | some a, some b, some c2, some d =>
                let n := ((a * 16 + b) * 16 + c2) * 16 + d
                if 0xD800 ≤ n ∧ n < 0xDC00 then
                  match rest2 with
                  | '\\' :: 'u' :: g1 :: g2 :: g3 :: g4 :: rest3 =>
                    match hexVal g1, hexVal g2, hexVal g3, hexVal g4 with
                    | some a2, some b2, some c3, some d2 =>
                      let m := ((a2 * 16 + b2) * 16 + c3) * 16 + d2
                      if 0xDC00 ≤ m ∧ m < 0xE000 then do
                        let (tail, r) ← parseStringBody fuel rest3
                        .ok (Char.ofNat (0x10000 + (n - 0xD800) * 0x400 + (m - 0xDC00)) :: tail, r)
                      else .error (.unicode "lone surrogate")
                    | _, _, _, _ => .error (.jsonSyntax "Invalid unicode escape")
                  | _ => .error (.unicode "lone surrogate")
                else if 0xDC00 ≤ n ∧ n < 0xE000 then .error (.unicode "lone surrogate")
                else do
                  let (tail, r) ← parseStringBody fuel rest2
                  .ok (Char.ofNat n :: tail, r)
              | _, _, _, _ => .error (.jsonSyntax "Invalid unicode escape")
            | _ => .error (.jsonSyntax "Invalid unicode escape")
          else do
            let esc ←
              if e == '"' then Except.ok '"'
              else if e == '\\' then Except.ok '\\'
              else if e == '/' then Except.ok '/'
              else if e == 'b' then Except.ok (Char.ofNat 8)
              else if e == 'f' then Except.ok (Char.ofNat 12)
              else if e == 'n' then Except.ok '\n'
              else if e == 'r' then Except.ok '\r'
              else if e == 't' then Except.ok '\t'
              else Except.error (DecodeError.jsonSyntax "Invalid escape")
            let (tail, r) ← parseStringBody fuel rest1
            .ok (esc :: tail, r)
      else if c.toNat < 32 then .error (.jsonSyntax "Invalid control character")
      else do
        let (tail, r) ← parseStringBody fuel rest
        .ok (c :: tail, r)

/-- Leading run of decimal digits. -/
def takeDigits : List Char → List Char × List Char
  | [] => ([], [])
  | c :: rest =>
    if 48 ≤ c.toNat ∧ c.toNat ≤ 57 then
      let (ds, r) := takeDigits rest
      (c :: ds, r)
    else ([], c :: rest)

/-- Value of a digit run. -/
def digitsVal (ds : List Char) : ℕ :=
  ds.foldl (fun acc c => acc * 10 + (c.toNat - 48)) 0

/-- Fraction part of a JSON number, if present. -/
def parseFrac : List Char → Except DecodeError (List Char × List Char)
  | '.' :: r =>
    let (ds, rest) := takeDigits r
    if ds.isEmpty then .error (.jsonSyntax "Expecting digit") else .ok (ds, rest)
  | cs => .ok ([], cs)

/-- Exponent part of a JSON number, if present: (negative?, digits, rest). -/
def parseExp : List Char → Except DecodeError (Bool × List Char × List Char)
  | c :: r =>
    if c == 'e' || c == 'E' then
      let (sgn, r1) :=
        match r with
        | '+' :: r2 => (false, r2)
        | '-' :: r2 => (true, r2)
        | _ => (false, r)
      let (ds, rest) := takeDigits r1
      if ds.isEmpty then .error (.jsonSyntax "Expecting digit") else .ok (sgn, ds, rest)
    else .ok (false, [], c :: r)
  | [] => .ok (false, [], [])

/-- A JSON number (int or float) as a rational. -/
def parseNumber (cs : List Char) : Except DecodeError (Json × List Char) := do
  let (neg, cs1) :=
    match cs with
    | '-' :: r => (true, r)
    | _ => (false, cs)
  let (ints, cs2) := takeDigits cs1
  if ints.isEmpty then .error (.jsonSyntax "Expecting value")
  else do
    let (fds, cs3) ← parseFrac cs2
    let (negExp, eds, cs4) ← parseExp cs3
    let mant : ℚ := (digitsVal (ints ++ fds) : ℚ) / 10 ^ fds.length
    let expo : ℕ := digitsVal eds
    let mag : ℚ := if negExp then mant / 10 ^ expo else mant * 10 ^ expo
    .ok (.num (if neg then -mag else mag), cs4)

/-- Matches an expected literal tail such as `rue` / `alse` / `ull`. -/
def expectChars : List Char → List Char → Option (List Char)
  | [], cs => some cs
  | p :: ps, c :: cs => if c == p then expectChars ps cs else none
  | _ :: _, [] => none

mutual

/-- One JSON value of the `json.loads` grammar.  The fuel, bounded below
by twice the input length, decreases on every nested parse. -/
def parseValue : ℕ → List Char → Except DecodeError (Json × List Char)
  | 0, _ => .error (.jsonSyntax "fuel exhausted")
  | fuel + 1, input =>
    match skipWs input with
    | [] => .error (.jsonSyntax "Expecting value")
    | c :: rest =>
      if c == '"' then do
        let (body, r) ← parseStringBody (rest.length + 1) rest
        .ok (.str (String.mk body), r)
      else if c == '[' then parseItemsStart fuel rest
      else if c == Char.ofNat 123 then parseFieldsStart fuel rest
      else if c == 't' then
        match expectChars ['r', 'u', 'e'] rest with
        | some r => .ok (.bool true, r)
        | none => .error (.jsonSyntax "Expecting value")
      else if c == 'f' then
        match expectChars ['a', 'l', 's', 'e'] rest with
        | some r => .ok (.bool false, r)
        | none => .error (.jsonSyntax "Expecting value")
      else if c == 'n' then
        match expectChars ['u', 'l', 'l'] rest with
        | some r => .ok (.null, r)
        | none => .error (.jsonSyntax "Expecting value")
      else parseNumber (c :: rest)

/-- Array items after `[`. -/
def parseItemsStart : ℕ → List Char → Except DecodeError (Json × List Char)
  | 0, _ => .error (.jsonSyntax "fuel exhausted")
  | fuel + 1, input =>
    match skipWs input with
    | ']' :: r => .ok (.arr [], r)
    | cs => do
      let (first, r1) ← parseValue fuel cs
      let (more, r2) ← parseItemsMore fuel r1
      .ok (.arr (first :: more), r2)

/-- Array items after the first one. -/
def parseItemsMore : ℕ → List Char → Except DecodeError (List Json × List Char)
  | 0, _ => .error (.jsonSyntax "fuel exhausted")
  | fuel + 1, input =>
    match skipWs input with
    | ',' :: r => do
      let (v, r1) ← parseValue fuel r
      let (more, r2) ← parseItemsMore fuel r1
      .ok (v :: more, r2)
    | ']' :: r => .ok ([], r)
    | _ => .error (.jsonSyntax "Expecting comma delimiter")

/-- Object fields after the opening brace. -/
def parseFieldsStart : ℕ → List Char → Except DecodeError (Json × List Char)
  | 0, _ => .error (.jsonSyntax "fuel exhausted")
  | fuel + 1, input =>
    match skipWs input with
    | [] => .error (.jsonSyntax "Expecting property name")
    | c :: rest =>
      if c == Char.ofNat 125 then .ok (.obj [], rest)
      else do
        let (kv, r1) ← parseField fuel (c :: rest)
        let (more, r2) ← parseFieldsMore fuel r1
        .ok (.obj (kv :: more), r2)

/-- One `"key": value` field. -/
def parseField : ℕ → List Char → Except DecodeError ((String × Json) × List Char)
  | 0, _ => .error (.jsonSyntax "fuel exhausted")
  | fuel + 1, input =>
    match skipWs input with
    | '"' :: rest => do
      let (key, r1) ← parseStringBody (rest.length + 1) rest
      match skipWs r1 with
      | ':' :: r2 => do
        let (v, r3) ← parseValue fuel r2
        .ok ((String.mk key, v), r3)
      | _ => .error (.jsonSyntax "Expecting colon delimiter")
    | _ => .error (.jsonSyntax "Expecting property name")

/-- Object fields after the first one. -/
def parseFieldsMore : ℕ → List Char → Except DecodeError (List (String × Json) × List Char)
  | 0, _ => .error (.jsonSyntax "fuel exhausted")
  | fuel + 1, input =>
    match skipWs input with
    | ',' :: r => do
      let (kv, r1) ← parseField fuel r
      let (more, r2) ← parseFieldsMore fuel r1
      .ok (kv :: more, r2)
    | c :: r =>
      if c == Char.ofNat 125 then .ok ([], r)
      else .error (.jsonSyntax "Expecting comma delimiter")
    | [] => .error (.jsonSyntax "Expecting comma delimiter")

end

/-- `json.loads`: one value, then only trailing whitespace; fails with
"Expecting value" on empty input. -/
def json_loads (s : String) : Except DecodeError Json := do
  let (v, rest) ← parseValue (2 * s.data.length + 2) s.data
  match skipWs rest with
  | [] => .ok v
  | _ => .error (.jsonSyntax "Extra data")

/-- `decode_queries` at the transport level (app.py:113-117):
`base64.urlsafe_b64decode(encoded_str.encode()).decode()`, `json.loads`,
then the tree-level rebuild.  Every stage that raises in Python is a
`DecodeError` value here. -/
def decode_queries_str (encoded_str : String) : Except DecodeError SessionQueryLog := do
  let bytes ← urlsafe_b64decode encoded_str
  let chars ← utf8Decode (bytes.length + 1) bytes
  let data ← json_loads (String.mk chars)
  decode_queries data

/-- app.py:286: the default used when the GET parameter
`previous_queries_encoded` is absent — the literal string "[]". -/
def GET_DEFAULT_PREVIOUS_QUERIES : String := "[]"

/-- app.py:293: `search` calls `decode_queries` on the submitted (or
defaulted) token with no exception handling around it, so any decode
failure propagates out of the request handler. -/
def search_load_session (previous_queries_encoded : String) : Except DecodeError SessionQueryLog :=
  decode_queries_str previous_queries_encoded

/-- `build_query` (app.py:120-237), translated clause for clause into the
`Json` tree it returns: a function-scored bool filter, a spelling-suggest
side request, a highlight section with its own sub-query, and a fixed
result size. -/
def build_query (queries : List (List (List Term))) (highlights : List Term)
    (plain_query : String) : Json :=
  let functions : List Json :=
    [.obj [("gauss", .obj [("document_date", .obj
        [("origin", .str "now"), ("scale", .str "300d"), ("decay", .num (99/100))])])]]
  let highlight_functions : List Json :=
    (queries.flatMap (fun query => query.flatMap (fun phrases => phrases.flatMap (fun phrase =>
      [.obj [("match_phrase", .obj [("document_text", .obj
          [("query", .str phrase.text), ("slop", .num 20), ("boost", .num 10)])])],
       .obj [("match_phrase", .obj [("document_text", .obj
          [("query", .str phrase.no_stop), ("slop", .num 20), ("boost", .num 5)])])]]))))
    ++ ((highlights.filter (fun highlight => highlight.no_stop != "")).map (fun highlight =>
      .obj [("match_phrase", .obj [("document_text", .obj
          [("query", .str highlight.no_stop), ("slop", .num 20), ("boost", .num 1)])])]))
  let filter : List Json :=
    queries.flatMap (fun query => query.map (fun phrases =>
      .obj [("bool", .obj
        [("should", .arr (phrases.map (fun phrase =>
            .obj [("match_phrase", .obj [("document_text", .obj
                [("query", .str phrase.no_stop), ("slop", .num 20)])])]))),
         ("minimum_should_match", .num 1)])]))
  .obj
    [("query", .obj [("function_score", .obj
        [("query", .obj [("bool", .obj [("must", .arr filter)])]),
         ("functions", .arr functions),
         ("score_mode", .str "multiply"),
         ("boost_mode", .str "replace")])]),
     ("suggest", .obj
        [("text", .str plain_query),
         ("spellcheck", .obj [("term", .obj
            [("field", .str "document_text"),
             ("suggest_mode", .str "always")])])]),
     ("highlight", .obj
        [("fields", .obj [("document_text", .obj
            [("fragment_size", .num 50),
             ("number_of_fragments", .num 18),
             ("type", .str "unified"),
             ("matched_fields", .arr [.str "document_text"]),
             ("highlight_query", .obj [("bool", .obj
                [("should", .arr highlight_functions)])])])]),
         ("fragmenter", .str "score_ordered"),
         ("require_field_match", .bool true)]),
     ("size", .num 50)]

/-- One option of a spellcheck suggestion entry (engine contract: suggested
text plus frequency and confidence score). -/
structure SpellOption where
  text : String
  freq : ℤ
  score : ℚ
deriving DecidableEq

/-- One spellcheck suggestion entry: the analyzed term and its options. -/
structure SuggestEntry where
  text : String
  options : List SpellOption
deriving DecidableEq

/-- `get_corrected_query` (app.py:239-252).  The unwrapping
`response.get("suggest", \x7b\x7d).get("spellcheck", [])` is modelled by
taking the spellcheck entry list directly (empty when the block is
absent); entries follow the engine's suggest contract. -/
def get_corrected_query (suggestions : List SuggestEntry) (query : String) : String :=
  let corrected_terms := suggestions.map (fun entry =>
    match entry.options with
    | [] => entry.text
    | top :: _ =>
      if (top.freq > 5 ∧ top.score > 9/10) ∨ (top.freq > 50 ∧ top.score > 7/10) then
        top.text
      else
        entry.text)
  let corrected_query := pyJoin " " corrected_terms
  if pyLower corrected_query == pyLower query then "" else corrected_query

/-- The style rewrite applied to every `<em>` tag (app.py:262). -/
def MARK_OPEN : String :=
  "<mark style=\x27background-color: #ffff00; font-weight: bold;\x27>"

/-- `get_snippets` (app.py:254-266): flattens the per-field fragment lists
of a hit's highlight dict and rewrites `<em>`/`</em>` into the `<mark>`
style; no other transformation is applied. -/
def get_snippets (highlights : List (String × List String)) : List String :=
  let all_snippets := (highlights.map Prod.snd).flatten
  all_snippets.map (fun snippet =>
    pyReplace (pyReplace snippet "<em>" MARK_OPEN) "</em>" "</mark>")

/-- A value that is a list of strings (`isinstance(l, list)` and
`all(isinstance(item, str) for item in l)`), extracted. -/
def Json.asStringList (j : Json) : Option (List String) :=
  match j with
  | .arr items => mapOption (fun it => match it with | .str s => some s | _ => none) items
  | _ => none

/-- A value that is a list of lists of strings, extracted. -/
def Json.asStringMatrix (j : Json) : Option (List (List String)) :=
  match j with
  | .arr rows => mapOption Json.asStringList rows
  | _ => none

/-- `_try_parse_search_highlight_json` (llm.py:129-148): accepts the
literal-evaluated response iff it is a dict that has keys "search" and
"highlight", where `parsed["highlight"]` is a list of strings and
`parsed["search"]` is a list of lists of strings; no other key is
inspected.  A `none` input models a `literal_eval` failure, which the
`except` branch turns into a rejection. -/
def try_parse_search_highlight_json (output : Option Json) : Option SearchHighlightResponse :=
  match output with
  | none => none
  | some parsed =>
    match parsed with
    | .obj fields =>
      match lookupField fields "search", lookupField fields "highlight" with
      | some searchJ, some highlightJ =>
        match searchJ.asStringMatrix, highlightJ.asStringList with
        | some search, some highlight => some { search := search, highlight := highlight }
        | _, _ => none
      | _, _ => none
    | _ => none

/-- `max_retries` default of `ChatGPTTupleArrayFetcher.__init__` (llm.py:22);
`app.py` constructs the fetcher with this default. -/
def default_max_retries : ℕ := 3

/-- The retry loop of `fetch_search_highlight` (llm.py:264-274), with the
external generator as an oracle `responses : ℕ → Option Json` giving, per
attempt index, the literal-eval result of that attempt's response text
(`none` = unparseable text).  Runs while attempts remain, returns the
first accepted response, and returns `none` ("Max retries reached") after
the last rejection; the fix prompt sent on retries is prompt
configuration, outside the core logic. -/
def fetch_attempts (responses : ℕ → Option Json) : ℕ → ℕ → Option SearchHighlightResponse
  | _, 0 => none
  | attempt, remaining + 1 =>
    match try_parse_search_highlight_json (responses attempt) with
    | some parsed => some parsed
    | none => fetch_attempts responses (attempt + 1) remaining

/-- `fetch_search_highlight` (llm.py:150-274) as seen by its caller:
`max_retries` bounded attempts, first accepted parse or `none`. -/
def fetch_search_highlight (responses : ℕ → Option Json) (max_retries : ℕ) :
    Option SearchHighlightResponse :=
  fetch_attempts responses 0 max_retries

/-- app.py:294-296: the fallback at the expansion boundary — a `None`
result from the fetcher is replaced by
`SearchHighlightResponse([[query_text]], [query_text])`. -/
def search_expand_result (fetched : Option SearchHighlightResponse) (query_text : String) :
    SearchHighlightResponse :=
  match fetched with
  | none => { search := [[query_text]], highlight := [query_text] }
  | some res => res

/-- app.py:298-299: appends the newest turn to the decoded log and builds
the engine query from every turn's search groups plus the newest turn's
highlight terms. -/
def search_es_query (prior : SessionQueryLog)
    (res_with_no_stop : SearchHighlightResponseWithNoStop) (query_text : String) : Json :=
  let queries := prior ++ [(query_text, res_with_no_stop)]
  build_query (queries.map (fun p => p.2.search)) res_with_no_stop.highlight query_text

/-! ### Definitions written from the spec's words, for comparison with
the source-embedded functions above. -/

/-- The unconditional emphasis restyle that `get_snippets` applies to one
fragment. -/
def restyleSnippet (snippet : String) : String :=
  pyReplace (pyReplace snippet "<em>" MARK_OPEN) "</em>" "</mark>"

/-- Highlight sub-query clause on the raw text of a search phrase
(slop 20, boost 10). -/
def highlightSearchClauseRaw (phrase : Term) : Json :=
  .obj [("match_phrase", .obj [("document_text", .obj
      [("query", .str phrase.text), ("slop", .num 20), ("boost", .num 10)])])]

/-- Highlight sub-query clause on the stripped text of a search phrase
(slop 20, boost 5). -/
def highlightSearchClauseStripped (phrase : Term) : Json :=
  .obj [("match_phrase", .obj [("document_text", .obj
      [("query", .str phrase.no_stop), ("slop", .num 20), ("boost", .num 5)])])]

/-- Highlight sub-query clause on the stripped text of a highlight term
(slop 20, boost 1). -/
def highlightTermClause (highlight : Term) : Json :=
  .obj [("match_phrase", .obj [("document_text", .obj
      [("query", .str highlight.no_stop), ("slop", .num 20), ("boost", .num 1)])])]

/-- The filter clause generated for one term group: a disjunction over
the group's phrases (`minimum_should_match` 1), each a slop-20 phrase
match on the stripped text. -/
def filterGroupClause (phrases : List Term) : Json :=
  .obj [("bool", .obj
    [("should", .arr (phrases.map (fun phrase =>
        .obj [("match_phrase", .obj [("document_text", .obj
            [("query", .str phrase.no_stop), ("slop", .num 20)])])]))),
     ("minimum_should_match", .num 1)])]

/-- The single scoring function of every built query: a gaussian decay on
`document_date`, anchored at `now`, scale 300 days, decay value 0.99 at
the scale distance. -/
def gaussDecayFunction : Json :=
  .obj [("gauss", .obj [("document_date", .obj
      [("origin", .str "now"), ("scale", .str "300d"), ("decay", .num (99/100))])])]

/-- The strict ExpansionResult shape asserted by the claim: exactly the
top-level keys "search" and "highlight", "search" a list of NON-empty
lists of strings, "highlight" a list of strings. -/
def isStrictExpansionShape (v : Json) : Bool :=
  match v with
  | .obj fields =>
    (match lookupField fields "search" with
      | some s =>
        match s.asStringMatrix with
        | some rows => rows.all (fun row => !row.isEmpty)
        | none => false
      | none => false)
    && (match lookupField fields "highlight" with
      | some h => h.asStringList.isSome
      | none => false)
    && fields.all (fun kv => kv.1 == "search" || kv.1 == "highlight")
  | _ => false

/-- The shape the validator actually accepts: a dict that has a key
"search" holding a list of lists of strings (inner lists may be empty)
and a key "highlight" holding a list of strings; other keys are not
inspected. -/
def isAcceptedExpansionShape (v : Json) : Bool :=
  match v with
  | .obj fields =>
    (match lookupField fields "search" with
      | some s => s.asStringMatrix.isSome
      | none => false)
    && (match lookupField fields "highlight" with
      | some h => h.asStringList.isSome
      | none => false)
  | _ => false

/-- A generator response with an empty inner search group and an extra
top-level key: outside the strict shape, yet accepted by the validator. -/
def c8_accepted_with_extra_key : Json :=
  .obj [("search", .arr [.arr []]), ("highlight", .arr []), ("extra", .str "x")]

/-- The spec's acceptance rule for a suggestion slot's top alternative:
(frequency > 5 and confidence > 0.9) or (frequency > 50 and
confidence > 0.7). -/
def acceptTopAlternative (freq : ℤ) (score : ℚ) : Bool :=
  decide (freq > 5 ∧ score > 9/10) || decide (freq > 50 ∧ score > 7/10)

/-- `correctSpelling` as the spec words it: per slot, take the top
alternative when `acceptTopAlternative` holds, else keep the original
token; join with single spaces; empty result when case-insensitively
identical to the original query. -/
def correctSpelling_spec (suggestions : List SuggestEntry) (query : String) : String :=
  let toks := suggestions.map (fun entry =>
    match entry.options with
    | [] => entry.text
    | top :: _ => if acceptTopAlternative top.freq top.score then top.text else entry.text)
  let joined := pyJoin " " toks
  if pyLower joined == pyLower query then "" else joined

/-! ### Supporting lemmas -/

theorem bindOk {ε α β : Type} (a : α) (f : α → Except ε β) :
    ((Except.ok a : Except ε α) >>= f) = f a := rfl

theorem term_from_dict_to_dict (t : Term) : Term.from_dict t.to_dict = .ok t := rfl

theorem mapExcept_map {α β γ ε : Type} (f : β → Except ε γ) (g : α → β) (l : List α) :
    mapExcept f (l.map g) = mapExcept (fun a => f (g a)) l := by
  induction l with
  | nil => rfl
  | cons x xs ih => simp [mapExcept, ih]

theorem mapExcept_congr {α β ε : Type} {f g : α → Except ε β} (l : List α)
    (h : ∀ a, a ∈ l → f a = g a) : mapExcept f l = mapExcept g l := by
  induction l with
  | nil => rfl
  | cons x xs ih =>
    simp [mapExcept, h x (by simp), ih (fun a ha => h a (by simp [ha]))]

theorem mapExcept_ok {α ε : Type} (l : List α) :
    mapExcept (fun a => (Except.ok a : Except ε α)) l = .ok l := by
  induction l with
  | nil => rfl
  | cons x xs ih => simp [mapExcept, ih, bindOk]

theorem mapExcept_term_roundtrip (l : List Term) :
    mapExcept Term.from_dict (l.map Term.to_dict) = .ok l := by
  rw [mapExcept_map]
  rw [mapExcept_congr l (fun t _ => term_from_dict_to_dict t)]
  exact mapExcept_ok l

theorem shr_from_dict_to_dict (r : SearchHighlightResponseWithNoStop) :
    SearchHighlightResponseWithNoStop.from_dict r.to_dict = .ok r := by
  obtain ⟨search, highlight⟩ := r
  show (do
    let search' ← mapExcept (fun g => do
      let items ← Json.asArr g
      mapExcept Term.from_dict items)
      (search.map (fun group => Json.arr (group.map Term.to_dict)))
    let highlight' ← mapExcept Term.from_dict (highlight.map Term.to_dict)
    pure (SearchHighlightResponseWithNoStop.mk search' highlight'))
    = Except.ok (SearchHighlightResponseWithNoStop.mk search highlight)
  rw [mapExcept_map]
  rw [mapExcept_congr search (fun g _ => by
    show (do
      let items ← Json.asArr (Json.arr (g.map Term.to_dict))
      mapExcept Term.from_dict items) = Except.ok g
    rw [show Json.asArr (Json.arr (g.map Term.to_dict)) = .ok (g.map Term.to_dict) from rfl]
    rw [bindOk]
    exact mapExcept_term_roundtrip g)]
  rw [mapExcept_ok, bindOk, mapExcept_term_roundtrip, bindOk]
  rfl

theorem decodeLogEntry_roundtrip (p : String × SearchHighlightResponseWithNoStop) :
    decodeLogEntry (.arr [.str p.1, p.2.to_dict]) = .ok p := by
  obtain ⟨q, r⟩ := p
  show (do
    let query ← Json.asStr (.str q)
    let resp ← SearchHighlightResponseWithNoStop.from_dict r.to_dict
    pure (query, resp)) = Except.ok (q, r)
  rw [show Json.asStr (.str q) = .ok q from rfl, bindOk, shr_from_dict_to_dict, bindOk]
  rfl

theorem log_roundtrip (L : SessionQueryLog) :
    mapExcept decodeLogEntry (L.map (fun p => Json.arr [.str p.1, p.2.to_dict])) = .ok L := by
  rw [mapExcept_map]
  rw [mapExcept_congr L (fun p _ => decodeLogEntry_roundtrip p)]
  exact mapExcept_ok L

theorem fetch_attempts_all_rejected (responses : ℕ → Option Json) :
    ∀ (n i : ℕ), (∀ k, k < i + n → try_parse_search_highlight_json (responses k) = none) →
    fetch_attempts responses i n = none := by
  intro n
  induction n with
  | zero => intro i _; rfl
  | succ m ih =>
    intro i h
    have hi : try_parse_search_highlight_json (responses i) = none := h i (by omega)
    show (match try_parse_search_highlight_json (responses i) with
      | some parsed => some parsed
      | none => fetch_attempts responses (i + 1) m) = none
    rw [hi]
    exact ih (i + 1) (fun k hk => h k (by omega))

/-! ### The claims -/

/-- C1: when the external generator fails to produce a parseable expansion
on every attempt of the bounded retry loop, `fetch_search_highlight`
returns `None` instead of raising, and the caller (app.py:294-296) falls
back to an expansion whose search part is the single group holding
exactly the raw query verbatim (and whose highlight list is the raw query
alone), so the request still builds a query. -/
theorem C1_expansion_failure_fallback (responses : ℕ → Option Json) (n : ℕ) (rawQuery : String)
    (hfail : ∀ k, k < n → try_parse_search_highlight_json (responses k) = none) :
    fetch_search_highlight responses n = none ∧
    (search_expand_result (fetch_search_highlight responses n) rawQuery).search
      = [[rawQuery]] ∧
    (search_expand_result (fetch_search_highlight responses n) rawQuery).highlight
      = [rawQuery] := by
  have hnone : fetch_search_highlight responses n = none :=
    fetch_attempts_all_rejected responses n 0 (fun k hk => hfail k (by omega))
  refine ⟨hnone, ?_, ?_⟩ <;> rw [hnone] <;> rfl

/-- Witness for C1 at the default retry count and a concrete raw query,
with a generator whose output never parses. -/
theorem C1_expansion_failure_fallback_witness :
    fetch_search_highlight (fun _ => none) default_max_retries = none ∧
    (search_expand_result (fetch_search_highlight (fun _ => none) default_max_retries)
        "denial of sanction").search = [["denial of sanction"]] ∧
    (search_expand_result (fetch_search_highlight (fun _ => none) default_max_retries)
        "denial of sanction").highlight = ["denial of sanction"] :=
  C1_expansion_failure_fallback (fun _ => none) default_max_retries "denial of sanction"
    (fun _ _ => rfl)

/-- C2: decoding the encoding of any session query log — empty logs,
zero-length term groups and arbitrary (unicode) strings included — gives
back exactly the same log, preserving turn order and every Term's cached
stopword-stripped form. -/
theorem C2_codec_roundtrip (L : SessionQueryLog) :
    decode_queries (encode_queries L) = .ok L := by
  show (do
    let entries ← Json.asArr (.arr (L.map (fun p => Json.arr [.str p.1, p.2.to_dict])))
    mapExcept decodeLogEntry entries) = Except.ok L
  rw [show Json.asArr (.arr (L.map (fun p => Json.arr [.str p.1, p.2.to_dict])))
      = .ok (L.map (fun p => Json.arr [.str p.1, p.2.to_dict])) from rfl]
  rw [bindOk]
  exact log_roundtrip L

/-- C3 (code bug): decoding the empty session token — or the GET-path
default token "[]", which base64-strips to zero bytes — raises a JSON
"Expecting value" error inside `decode_queries`, and `search`
(app.py:293) wraps the call in no handler, so the request fails instead
of being treated as an empty prior session; only a well-formed token such
as the serialized empty log (the POST-path default, base64 of the JSON
text of the empty log) decodes to the empty log. -/
theorem C3_empty_or_default_token_fails :
    search_load_session "" = .error (.jsonSyntax "Expecting value") ∧
    search_load_session GET_DEFAULT_PREVIOUS_QUERIES
      = .error (.jsonSyntax "Expecting value") ∧
    decode_queries_str "eyJyZXNwIjpbXX0=" = .ok [] :=
  ⟨rfl, rfl, rfl⟩

/-- C4 counterexample: with the claim's vocabulary ("murder"/"homicide")
containing no word of the emphasized span, the claim predicts the markup
is stripped, i.e. the cleaned fragment is "the unrelated text"; the code
has no vocabulary parameter at all and restyles the span instead, so the
output differs. -/
theorem C4_counterexample :
    get_snippets [("document_text", ["the <em>unrelated</em> text"])]
      ≠ ["the unrelated text"] := by decide

/-- C4 amended: `get_snippets` applies no vocabulary-based filtering —
every emphasis-marked span, grounded in the query vocabulary or not,
keeps its markup re-rendered as the visual mark style; the output is
exactly the flattened fragments with `<em>`/`</em>` rewritten, as the two
claim examples illustrate. -/
theorem C4_snippets_restyle_only (highlights : List (String × List String)) :
    get_snippets highlights = ((highlights.map Prod.snd).flatten).map restyleSnippet ∧
    get_snippets [("document_text", ["the <em>unrelated</em> text"])]
      = ["the " ++ MARK_OPEN ++ "unrelated</mark> text"] ∧
    get_snippets [("document_text", ["<em>murder</em> weapon"])]
      = [MARK_OPEN ++ "murder</mark> weapon"] :=
  ⟨rfl, by decide, by decide⟩

/-- C5 counterexample: a two-turn session whose first turn searched
"alpha" and whose latest turn has search term "beta" and highlight term
"gamma".  The head of the built highlight sub-query's should-list is the
raw-text clause for "alpha" — a search-group term of an EARLIER turn —
while the latest turn's highlight list holds only "gamma"; so the
highlight sub-query is not built exclusively from the latest turn's
highlight-Term list. -/
theorem C5_counterexample :
    ((search_es_query [("alpha", ⟨[[Term.ofText "alpha"]], [Term.ofText "alpha"]⟩)]
        ⟨[[Term.ofText "beta"]], [Term.ofText "gamma"]⟩ "beta").getPath
        ["highlight", "fields", "document_text", "highlight_query", "bool", "should"]).bind
      Json.arrHead
      = some (.obj [("match_phrase", .obj [("document_text", .obj
          [("query", .str "alpha"), ("slop", .num 20), ("boost", .num 10)])])]) ∧
    (SearchHighlightResponseWithNoStop.mk [[Term.ofText "beta"]]
        [Term.ofText "gamma"]).highlight.map Term.text = ["gamma"] ∧
    ("alpha" : String) ≠ "gamma" :=
  ⟨rfl, rfl, by decide⟩

/-- C5 amended: the highlight sub-query is a separate should-list
containing, for every search phrase of every turn of the whole session
log (earlier turns included), a raw-text clause (boost 10) and a
stripped-text clause (boost 5), followed by one stripped-text clause
(boost 1) per latest-turn highlight term whose stripped form is
non-empty; every clause is a slop-20 phrase match.  Only the
highlight-term tail is restricted to the latest turn. -/
theorem C5_highlight_subquery_contents (prior : SessionQueryLog)
    (res : SearchHighlightResponseWithNoStop) (query_text : String) :
    (search_es_query prior res query_text).getPath
        ["highlight", "fields", "document_text", "highlight_query", "bool", "should"]
      = some (.arr (
        (((prior ++ [(query_text, res)]).map (fun p => p.2.search)).flatMap (fun query =>
          query.flatMap (fun phrases => phrases.flatMap (fun phrase =>
            [highlightSearchClauseRaw phrase, highlightSearchClauseStripped phrase]))))
        ++ ((res.highlight.filter (fun h => h.no_stop != "")).map highlightTermClause))) := rfl

/-- C6 counterexample: one new query whose expansion has two term groups,
with an empty prior log.  The claim predicts a filter conjoining exactly
one clause for this single turn (a turn-level disjunction over its
groups); the built filter instead conjoins two clauses — one per
group. -/
theorem C6_counterexample :
    ((search_es_query [] ⟨[[Term.ofText "alpha"], [Term.ofText "beta"]], []⟩ "q").getPath
        ["query", "function_score", "query", "bool", "must"]).bind Json.arrLength
      = some 2 ∧ (2 : ℕ) ≠ 1 :=
  ⟨rfl, by decide⟩

/-- C6 amended: the filter conjoins one clause per term GROUP across all
turns, not one per turn; each group clause is a disjunction over that
group's phrases with minimum_should_match 1 — any one phrase matching
suffices, rather than every phrase being required — each phrase a slop-20
match on its stripped text. -/
theorem C6_filter_structure (prior : SessionQueryLog)
    (res : SearchHighlightResponseWithNoStop) (query_text : String) :
    (search_es_query prior res query_text).getPath
        ["query", "function_score", "query", "bool", "must"]
      = some (.arr (((prior ++ [(query_text, res)]).map (fun p => p.2.search)).flatMap
          (fun turn => turn.map filterGroupClause))) := rfl

/-- C7 counterexample: in the built query the gaussian decay carries
decay value 0.99 at scale 300d — so the score multiplier at the 300-day
horizon is 0.99, not one half — and boost_mode is "replace", so the
function score replaces the base relevance score instead of multiplying
it. -/
theorem C7_counterexample :
    ((build_query [] [] "q").getPath ["query", "function_score", "functions"]).bind Json.arrHead
      = some gaussDecayFunction ∧
    (99 : ℚ) / 100 ≠ 1 / 2 ∧
    (build_query [] [] "q").getPath ["query", "function_score", "boost_mode"]
      = some (.str "replace") ∧
    ("replace" : String) ≠ "multiply" :=
  ⟨rfl, by norm_num, rfl, by decide⟩

/-- C7 amended: every built query carries exactly one scoring function —
a gaussian decay on document_date anchored at "now" with scale "300d"
and decay parameter 0.99 (multiplier 0.99 at the 300-day horizon, not
half strength) — functions are combined multiplicatively among
themselves (score_mode "multiply") and the resulting function score
replaces the base relevance score (boost_mode "replace"). -/
theorem C7_decay_parameters (queries : List (List (List Term))) (highlights : List Term)
    (plain_query : String) :
    (build_query queries highlights plain_query).getPath
        ["query", "function_score", "functions"] = some (.arr [gaussDecayFunction]) ∧
    (build_query queries highlights plain_query).getPath
        ["query", "function_score", "score_mode"] = some (.str "multiply") ∧
    (build_query queries highlights plain_query).getPath
        ["query", "function_score", "boost_mode"] = some (.str "replace") :=
  ⟨rfl, rfl, rfl⟩

/-- C8 counterexample: a response with an empty inner "search" list and
an extra top-level key is outside the strict shape the claim asserts
(non-empty inner lists, no extra keys), yet the validator accepts it. -/
theorem C8_counterexample :
    try_parse_search_highlight_json (some c8_accepted_with_extra_key)
      = some ⟨[[]], []⟩ ∧
    isStrictExpansionShape c8_accepted_with_extra_key = false :=
  ⟨rfl, rfl⟩

/-- C8 amended: the validator accepts a literal-evaluated response iff it
is a dict with a key "search" holding a list of lists of strings (inner
lists may be empty) and a key "highlight" holding a list of strings —
extra top-level keys are tolerated; any rejected response triggers
another attempt, and once every attempt of the bounded loop (default 3)
is rejected the fetcher returns none rather than trying a different
strategy. -/
theorem C8_acceptance_and_retries (v : Json) (responses : ℕ → Option Json) (n : ℕ)
    (hfail : ∀ k, k < n → try_parse_search_highlight_json (responses k) = none) :
    (try_parse_search_highlight_json (some v)).isSome = isAcceptedExpansionShape v ∧
    fetch_search_highlight responses n = none := by
  constructor
  · cases v with
    | obj fields =>
      simp only [try_parse_search_highlight_json, isAcceptedExpansionShape]
      cases hs : lookupField fields "search" with
      | none => simp [hs]
      | some s =>
        cases hh : lookupField fields "highlight" with
        | none => simp [hs, hh]
        | some h' =>
          cases hm : s.asStringMatrix with
          | none => simp [hs, hh, hm]
          | some rows =>
            cases hl : h'.asStringList with
            | none => simp [hs, hh, hm, hl]
            | some items => simp [hs, hh, hm, hl]
    | null => rfl
    | bool b => rfl
    | num q => rfl
    | str s => rfl
    | arr items => rfl
  · exact fetch_attempts_all_rejected responses n 0 (fun k hk => hfail k (by omega))

/-- Witness for C8 at a concrete well-shaped response and a generator
whose output never parses, with the default retry count. -/
theorem C8_acceptance_and_retries_witness :
    (try_parse_search_highlight_json (some (.obj
        [("search", .arr [.arr [.str "murder"]]),
         ("highlight", .arr [.str "homicide"])]))).isSome
      = isAcceptedExpansionShape (.obj
        [("search", .arr [.arr [.str "murder"]]),
         ("highlight", .arr [.str "homicide"])]) ∧
    fetch_search_highlight (fun _ => none) default_max_retries = none :=
  C8_acceptance_and_retries _ (fun _ => none) default_max_retries (fun _ _ => rfl)

/-- C9: the source corrector implements exactly the spec's slot rule —
accept the top alternative iff (freq > 5 and score > 0.9) or (freq > 50
and score > 0.7), else keep the original token, join with single spaces,
empty output when the join is case-insensitively identical to the
original query — including the three concrete threshold instances
(6, 0.91) accepted, (6, 0.85) rejected, (60, 0.75) accepted. -/
theorem C9_spelling_correction (suggestions : List SuggestEntry) (query : String)
    (hsup : pyLower (pyJoin " " (suggestions.map (fun entry =>
      match entry.options with
      | [] => entry.text
      | top :: _ =>
        if (top.freq > 5 ∧ top.score > 9/10) ∨ (top.freq > 50 ∧ top.score > 7/10) then top.text
        else entry.text))) = pyLower query) :
    get_corrected_query suggestions query = "" ∧
    (∀ s q, get_corrected_query s q = correctSpelling_spec s q) ∧
    get_corrected_query [⟨"orig", [⟨"alt", 6, 91/100⟩]⟩] "zzz" = "alt" ∧
    get_corrected_query [⟨"orig", [⟨"alt", 6, 85/100⟩]⟩] "zzz" = "orig" ∧
    get_corrected_query [⟨"orig", [⟨"alt", 60, 75/100⟩]⟩] "zzz" = "alt" := by
  refine ⟨?_, ?_, ?_, ?_, ?_⟩
  · simp [get_corrected_query, hsup]
  · intro s q
    have hmap : s.map (fun entry =>
        match entry.options with
        | [] => entry.text
        | top :: _ =>
          if (top.freq > 5 ∧ top.score > 9/10) ∨ (top.freq > 50 ∧ top.score > 7/10) then
            top.text
          else entry.text)
      = s.map (fun entry =>
        match entry.options with
        | [] => entry.text
        | top :: _ =>
          if acceptTopAlternative top.freq top.score then top.text else entry.text) := by
      apply List.map_congr_left
      intro entry _
      cases ho : entry.options with
      | nil => rfl
      | cons top rest =>
        by_cases h1 : top.freq > 5 ∧ top.score > 9/10 <;>
          by_cases h2 : top.freq > 50 ∧ top.score > 7/10 <;>
            simp [h1, h2, acceptTopAlternative]
    simp only [get_corrected_query, correctSpelling_spec, hmap]
  · simp only [get_corrected_query, List.map]
    norm_num
    decide
  · simp only [get_corrected_query, List.map]
    norm_num
    decide
  · simp only [get_corrected_query, List.map]
    norm_num
    decide

/-- Witness for C9's suppression hypothesis: a slot with no options keeps
its original token "Word", which is case-insensitively the query, so the
correction collapses to the empty string. -/
theorem C9_spelling_correction_witness :
    get_corrected_query [⟨"Word", []⟩] "word" = "" :=
  (C9_spelling_correction [⟨"Word", []⟩] "word" (by decide)).1

/-- C10: for every session log, highlight list and query string, the
built query requests at most 50 hits and caps highlighting on the
document text field at 18 fragments of 50 characters — constants
independent of the accumulated session. -/
theorem C10_fixed_limits (queries : List (List (List Term))) (highlights : List Term)
    (plain_query : String) :
    (build_query queries highlights plain_query).getPath ["size"] = some (.num 50) ∧
    (build_query queries highlights plain_query).getPath
        ["highlight", "fields", "document_text", "fragment_size"] = some (.num 50) ∧
    (build_query queries highlights plain_query).getPath
        ["highlight", "fields", "document_text", "number_of_fragments"] = some (.num 18) :=
  ⟨rfl, rfl, rfl⟩

end DemoSearch
